import Mathlib

/-!
Verification of the CHRFORGE client-side request pipeline.

The definitions below are a shallow embedding of the Python sources:
  * `src/CHRFORGE/client/request_client.py`  (request lifecycle, headers)
  * `src/CHRFORGE/client/base_client.py`     (event bus)
  * `src/CHRFORGE/config/endpoints.py`       (routing and exception tables)
  * `src/CHRFORGE/config/devices.py`         (platform defaults table)
  * `src/CHRFORGE/config/client_config.py`   (device-identity construction)

External capabilities (binary codec, transport, credential storage,
token refresh) are modelled as explicit parameters / per-attempt
environments, exactly as the sources treat them (opaque awaited calls).
-/

namespace CHRFORGE

/-- Python-like dynamic values as they appear in decoded thrift records:
`None`, booleans, integers, strings and string-keyed dicts. -/
inductive PyValue where
  | pynone
  | pybool (b : Bool)
  | pyint (n : Int)
  | pystr (s : String)
  | pydict (entries : List (String × PyValue))

/-- Python truthiness for the values above (`bool(v)`):
`None` and empty strings/dicts are falsy, `0` is falsy. -/
def PyValue.truthy : PyValue → Bool
  | .pynone => false
  | .pybool b => b
  | .pyint n => n != 0
  | .pystr s => s != ""
  | .pydict l => !l.isEmpty

/-- Model of `d.get(k)` on a dict value; `None` when the key is absent.
(The sources only ever call `.get` on dict payloads, so non-dict
values are mapped to `None` as well.) -/
def PyValue.dget : PyValue → String → PyValue
  | .pydict l, k =>
    match l.find? (fun kv => kv.1 = k) with
    | some kv => kv.2
    | none => .pynone
  | _, _ => .pynone

/-- Python `v == "s"`: true only for an equal string (any non-string value
compares unequal to a string). -/
def PyValue.eqStr : PyValue → String → Bool
  | .pystr s, t => s == t
  | _, _ => false

/-- Truthiness of `d.get(k)`-style optional values (absent key ↦ falsy). -/
def truthyOpt (o : Option PyValue) : Bool :=
  (o.getD .pynone).truthy

/-- Truthiness of an optional Python string (`None` and `""` are falsy). -/
def pyTruthyStr (o : Option String) : Bool :=
  o.getD "" != ""

/-- Python `x or d` on an optional string: the string when truthy, else `d`. -/
def pyOrStr (o : Option String) (d : String) : String :=
  if pyTruthyStr o then o.getD "" else d

/-- First-match association lookup, the model of Python `dict.get` over the
literal tables of the sources (keys are unique there). -/
def assocLookup {β : Type} : List (String × β) → String → Option β
  | [], _ => none
  | (k, v) :: rest, s => if k = s then some v else assocLookup rest s

theorem assocLookup_eq_none_of_not_mem {β : Type} :
    ∀ (l : List (String × β)) (s : String), s ∉ l.map Prod.fst →
      assocLookup l s = none := by
  intro l
  induction l with
  | nil => intro s _; rfl
  | cons kv rest ih =>
    intro s hs
    simp only [List.map_cons, List.mem_cons] at hs
    push_neg at hs
    simp only [assocLookup]
    rw [if_neg (fun h => hs.1 h.symm)]
    exact ih s hs.2

/-! ## Endpoint routing and exception tables (`config/endpoints.py`) -/

/-- Table `EndpointRegistry.EXCEPTION_TYPES` (identical to
`RequestClient.EXCEPTION_TYPES` in `request_client.py`). -/
def EXCEPTION_TYPES : List (String × String) :=
  [("/S3", "TalkException"),
   ("/S4", "TalkException"),
   ("/SYNC4", "TalkException"),
   ("/SYNC3", "TalkException"),
   ("/CH3", "ChannelException"),
   ("/CH4", "ChannelException"),
   ("/SQ1", "SquareException"),
   ("/LIFF1", "LiffException"),
   ("/api/v3p/rs", "TalkException"),
   ("/api/v3/TalkService.do", "TalkException")]

/-- Table `SQUARE_ENDPOINTS` from `request_client.py` / `endpoints.py`. -/
def SQUARE_ENDPOINTS : List String := ["/SQ1", "/SQLV1"]

/-- Model of `EndpointRegistry.get_exception_type`: a plain `dict.get` with **no**
default — unmapped paths yield `None`. -/
def getExceptionType (path : String) : Option String :=
  assocLookup EXCEPTION_TYPES path

/-- The defaulted lookup used inside `_request_core`:
`EXCEPTION_TYPES.get(path, "TalkException")`. -/
def exceptionTypeD (path : String) : String :=
  (assocLookup EXCEPTION_TYPES path).getD "TalkException"

/-- Record `DomainConfiguration`: the five base-domain values. -/
structure DomainConfiguration where
  line_host : String
  line_obs : String
  line_api : String
  line_access : String
  line_biz_timeline : String

/-- Model of Python `str.startswith`: character-level prefix test. -/
def strStartsWith (s p : String) : Bool := p.data.isPrefixOf s.data

/-- Model of `DomainConfiguration.get_domain_for_endpoint`: prefix routing with the
primary (`line_host`) domain as the fallthrough. -/
def getDomainForEndpoint (cfg : DomainConfiguration) (endpointPath : String) : String :=
  if strStartsWith endpointPath "/BEACON" then cfg.line_obs
  else if strStartsWith endpointPath "/CH" || strStartsWith endpointPath "/CHANNEL" then cfg.line_api
  else if strStartsWith endpointPath "/SQ" || strStartsWith endpointPath "/SQUARE" then cfg.line_api
  else cfg.line_host

/-! ## Header composition (`RequestClient.get_header`) -/

/-- The fixed header keys emitted by `get_header`, in insertion order. -/
def FIXED_HEADER_KEYS : List String :=
  ["Host", "accept", "user-agent", "x-line-application", "content-type",
   "x-lal", "x-lpv", "x-lhm", "accept-encoding"]

/-- Model of `RequestClient.get_header`: the fixed header dict, plus `x-line-access`
exactly when `self.client.auth_token` is truthy (present and non-empty). -/
def getHeader (endpoint userAgent systemType : String) (authToken : Option String)
    (overrideMethod : String) : List (String × String) :=
  [("Host", endpoint),
   ("accept", "application/x-thrift"),
   ("user-agent", userAgent),
   ("x-line-application", systemType),
   ("content-type", "application/x-thrift"),
   ("x-lal", "ja_JP"),
   ("x-lpv", "1"),
   ("x-lhm", overrideMethod),
   ("accept-encoding", "gzip")]
  ++ (if pyTruthyStr authToken then [("x-line-access", authToken.getD "")] else [])

/-! ## Devices and platform defaults (`config/devices.py`) -/

/-- Record `DeviceDetails`: immutable device identity record. The `device` field
holds the `DeviceType` enum's string value. -/
structure DeviceDetails where
  device : String
  app_version : String
  system_name : String
  system_version : String
  system_model : String
  user_domain : String
  is_secondary : Bool

/-- The string values of the `DeviceType` enum (a string not in this list
makes `DeviceType(s)` raise `ValueError`). -/
def deviceTypeValues : List String :=
  ["DESKTOPWIN", "DESKTOPMAC", "CHROMEOS", "ANDROID", "ANDROIDSECONDARY",
   "IOS", "IOSIPAD", "WATCHOS", "WEAROS", "VISIONOS",
   "OPENCHAT_PLUS", "CHANNELGW", "CHANNELCP", "CLOVAFRIENDS", "BOT",
   "WAP", "WEB", "BIZWEB", "DUMMYPRIMARY", "SQUARE",
   "FIREFOXOS", "TIZEN", "VIRTUAL", "CHRONO", "WINMETRO",
   "S40", "WINPHONE", "BLACKBERRY", "INTERNAL"]

/-- Table `DeviceConfigurationFactory._DEVICE_CONFIGS`: the platform→defaults
table. Each entry is the corresponding strategy's `get_device_details`,
as a function of the optional version override (`version or default`). -/
def DEVICE_CONFIGS : List (String × (Option String → DeviceDetails)) :=
  [("DESKTOPWIN", fun version =>
      ⟨"DESKTOPWIN", pyOrStr version "9.2.0.3403", "WINDOWS", "10.0.0-NT-x64",
       "KORONE-MY-WAIFU", "KORONE-MY-WAIFU", false⟩),
   ("DESKTOPMAC", fun version =>
      ⟨"DESKTOPMAC", pyOrStr version "9.2.0.3402", "MAC", "12.1.4",
       "KORONE-MY-WAIFU", "KORONE-MY-WAIFU", false⟩),
   ("CHROMEOS", fun version =>
      ⟨"CHROMEOS", pyOrStr version "3.0.3", "Chrome_OS", "1",
       "Chrome", "CHROMEOS", false⟩),
   ("ANDROID", fun version =>
      ⟨"ANDROID", pyOrStr version "13.4.1", "Android OS", "12.1.4",
       "System Product Name", "KORONE-MY-WAIFU", false⟩),
   ("ANDROIDSECONDARY", fun version =>
      ⟨"ANDROIDSECONDARY", pyOrStr version "13.4.1", "Android OS", "12.1.4",
       "System Product Name", "KORONE-MY-WAIFU", true⟩),
   ("IOS", fun version =>
      ⟨"IOS", pyOrStr version "13.3.0", "iOS", "12.1.4",
       "System Product Name", "KORONE-MY-WAIFU", false⟩),
   ("IOSIPAD", fun version =>
      ⟨"IOSIPAD", pyOrStr version "13.3.0", "iOS", "12.1.4",
       "iPad5,1", "KORONE-MY-WAIFU", false⟩),
   ("WATCHOS", fun version =>
      ⟨"WATCHOS", pyOrStr version "13.3.0", "Watch OS", "12.1.4",
       "System Product Name", "KORONE-MY-WAIFU", false⟩),
   ("WEAROS", fun version =>
      ⟨"WEAROS", pyOrStr version "13.4.1", "Wear OS", "12.1.4",
       "System Product Name", "KORONE-MY-WAIFU", false⟩),
   ("VISIONOS", fun version =>
      ⟨"VISIONOS", pyOrStr version "1.0.0", "visionOS", "12.1.4",
       "RealityDevice14,1", "KORONE-MY-WAIFU", false⟩)]

/-- The supported platforms: the key set of the platform→defaults table. -/
def supportedDeviceTypes : List String := DEVICE_CONFIGS.map Prod.fst

/-- Model of `DeviceConfigurationFactory.create_config` on a string argument:
`DeviceType(s)` raises for an invalid enum value, and a valid value with no
table entry raises as well; both failures are `None` here. -/
def createConfig (d : String) : Option (Option String → DeviceDetails) :=
  if deviceTypeValues.contains d then assocLookup DEVICE_CONFIGS d else none

/-- The module-level `get_device_details` convenience function:
`create_config` failures (either `ValueError`) are caught and become `None`;
otherwise the strategy's `get_device_details(version)` is returned. -/
def getDeviceDetails (device : String) (version : Option String) : Option DeviceDetails :=
  match createConfig device with
  | some f => some (f version)
  | none => none

/-- Model of `ClientConfiguration.create_with_device`, restricted to the device
identity it produces. The `try` branch is a supported platform; the caught
`ValueError` branch requires truthy `app_version`, `os_name` and
`os_version` (but not `os_model`) and builds a `CustomDeviceConfig`,
falling back to the `CHROMEOS` enum member for invalid type names. -/
def createWithDevice (deviceType : String)
    (appVersion osName osVersion osModel : Option String) :
    Except String DeviceDetails :=
  match createConfig deviceType with
  | some f => .ok (f appVersion)
  | none =>
    if !(pyTruthyStr appVersion && pyTruthyStr osName && pyTruthyStr osVersion) then
      .error ("You need to specify `app_version`, `os_name` and `os_version` " ++
        "to use this device type: " ++ deviceType)
    else
      let deviceEnum := if deviceTypeValues.contains deviceType then deviceType else "CHROMEOS"
      .ok ⟨deviceEnum, appVersion.getD "", osName.getD "", osVersion.getD "",
        pyOrStr osModel "System Product Name", "KORONE-MY-WAIFU", false⟩

/-- Whether `create_with_device` succeeded (no `ValueError`). -/
def createSucceeds (r : Except String DeviceDetails) : Bool :=
  match r with
  | .ok _ => true
  | .error _ => false

/-! ## Event bus (`BaseClient.on` / `BaseClient.emit`) -/

/-- A registered handler's behaviour at a given argument: it either returns
normally or raises (the raised message). Synchronous handlers; for
coroutine handlers `emit` only schedules a task, so a failure cannot reach
the emitter either. -/
def Handler (α : Type) : Type := α → Except String Unit

/-- State `BaseClient._event_handlers`: event name → handler list, in
registration order. -/
def EventState (α : Type) : Type := List (String × List (Handler α))

/-- Model of `BaseClient.on`: create the event's (empty) list if needed, then append
the handler. -/
def onEvent {α : Type} : EventState α → String → Handler α → EventState α
  | [], ev, h => [(ev, [h])]
  | (e, hs) :: rest, ev, h =>
    if e = ev then (e, hs ++ [h]) :: rest else (e, hs) :: onEvent rest ev h

/-- Model of `self._event_handlers.get(event, [])`. -/
def getHandlers {α : Type} : EventState α → String → List (Handler α)
  | [], _ => []
  | (e, hs) :: rest, ev => if e = ev then hs else getHandlers rest ev

/-- What `emit`'s loop records for one handler: a normal invocation, or a
failure caught by the per-handler `try/except` and only logged. -/
inductive HandlerOutcome where
  | invoked
  | failureLogged (msg : String)

/-- One guarded handler invocation inside `emit`'s loop. -/
def safeInvoke {α : Type} (arg : α) (h : Handler α) : HandlerOutcome :=
  match h arg with
  | .ok _ => .invoked
  | .error m => .failureLogged m

/-- The `for handler in handlers: try ... except ... log` loop of
`BaseClient.emit`: every handler is reached, failures are contained. -/
def emitLoop {α : Type} (arg : α) : List (Handler α) → List HandlerOutcome
  | [] => []
  | h :: rest => safeInvoke arg h :: emitLoop arg rest

/-- Model of `BaseClient.emit`: run the loop over the handlers registered for the
event. Total — no exception escapes to the emitter. -/
def emitEvent {α : Type} (st : EventState α) (ev : String) (arg : α) :
    List HandlerOutcome :=
  emitLoop arg (getHandlers st ev)

theorem emitLoop_eq_map {α : Type} (arg : α) :
    ∀ hs : List (Handler α), emitLoop arg hs = hs.map (safeInvoke arg) := by
  intro hs
  induction hs with
  | nil => rfl
  | cons h rest ih => simp [emitLoop, ih]

theorem getHandlers_onEvent {α : Type} (ev : String) (h : Handler α) :
    ∀ st : EventState α, getHandlers (onEvent st ev h) ev = getHandlers st ev ++ [h] := by
  intro st
  induction st with
  | nil => simp [onEvent, getHandlers]
  | cons p rest ih =>
    by_cases he : p.1 = ev
    · simp [onEvent, getHandlers, he]
    · simp [onEvent, getHandlers, he, ih]

/-! ## The request lifecycle (`RequestClient._request_core`) -/

/-- The decoded thrift record as returned by `read_thrift`: integer field 0
(success slot), integer field 1 (exception slot), and the number of other
populated keys (ids ≥ 2, counted for `len(res.data)`). -/
structure RawRecord where
  field0 : Option PyValue
  field1 : Option PyValue
  others : Nat

/-- Value of `len(...)` of the decoded record's dict. -/
def rawLen (raw : RawRecord) : Nat :=
  (if raw.field0.isSome then 1 else 0) + (if raw.field1.isSome then 1 else 0) + raw.others

/-- Flag `has_error = not res.data.get(0) and len(res.data) > 0`, computed on the
record **before** parse processing. -/
def hasErrorFlag (raw : RawRecord) : Bool :=
  !truthyOpt raw.field0 && rawLen raw != 0

/-- Shape of `res.data` after the parse branch of `_request_core`: the string keys
`"success"` and `"e"` plus whatever remains of the integer keys. -/
structure ResData where
  success : Option PyValue
  e : Option PyValue
  field0 : Option PyValue
  field1 : Option PyValue
  others : Nat

/-- The three shapes of the `parse` argument: `True`, a struct-name string,
or `False` (any non-`True`, non-string value takes the `False` branch). -/
inductive ParseMode where
  | full
  | named (structName : String)
  | noParse

/-- The parse branch of `_request_core`.
* `full` (`parse is True`) delegates to the codec's `rename_data`,
  passing whether the path is a Square endpoint — opaque, hence the
  `renameData` parameter.
* `named s` sets `data["success"] = rename_thrift(s, data.get(0))`,
  deletes key 0, and, when field 1 is truthy, sets
  `data["e"] = rename_thrift(EXCEPTION_TYPES.get(path, "TalkException"), data[1])`
  and deletes key 1.
* `noParse` is the same with the raw field 0 as the success value. -/
def processRecord (renameData : RawRecord → Bool → ResData)
    (renameThrift : String → PyValue → PyValue)
    (mode : ParseMode) (path : String) (raw : RawRecord) : ResData :=
  match mode with
  | .full => renameData raw (SQUARE_ENDPOINTS.contains path)
  | .named structName =>
    let base : ResData :=
      ⟨some (renameThrift structName (raw.field0.getD .pynone)), none, none,
        raw.field1, raw.others⟩
    if truthyOpt raw.field1 then
      { base with
          e := some (renameThrift (exceptionTypeD path) (raw.field1.getD .pynone)),
          field1 := none }
    else base
  | .noParse =>
    let base : ResData :=
      ⟨some (raw.field0.getD .pynone), none, none, raw.field1, raw.others⟩
    if truthyOpt raw.field1 then
      { base with
          e := some (renameThrift (exceptionTypeD path) (raw.field1.getD .pynone)),
          field1 := none }
    else base

/-- Flag `is_refresh`: the error slot is truthy, its `"code"` equals the
`MUST_REFRESH_V3_TOKEN` sentinel, and the credential store holds a truthy
(non-empty) refresh credential (`refreshTok`). -/
def isRefreshFlag (res : ResData) (refreshTok : Bool) : Bool :=
  truthyOpt res.e &&
    ((res.e.getD .pynone).dget "code").eqStr "MUST_REFRESH_V3_TOKEN" &&
    refreshTok

/-- Rendering `f"\x7bb:02x\x7d"` for a byte (0–255). -/
def hexDigitChar (n : Nat) : Char :=
  if n < 10 then Char.ofNat (48 + n) else Char.ofNat (87 + n)

/-- Two-digit lowercase hex of one byte. -/
def byteHex (b : Nat) : String :=
  String.mk [hexDigitChar (b / 16 % 16), hexDigitChar (b % 16)]

/-- Rendering of the first 100 bytes as space-joined two-digit hex. -/
def bodyHexDump (body : List Nat) : String :=
  String.intercalate " " ((body.take 100).map byteHex)

/-- The decode-failure diagnostic message. -/
def invalidBufferMsg (body : List Nat) : String :=
  "Request internal failed: Invalid response buffer <" ++ bodyHexDump body ++ ">"

/-- The transport-timeout message. -/
def timeoutMsg (timeout : Nat) (methodName path : String) : String :=
  "Request timeout after " ++ toString timeout ++ "ms for " ++ methodName ++
    "(" ++ path ++ ")"

/-- The generic transport-failure message. -/
def fetchFailMsg (methodName path emsg : String) : String :=
  "Request failed for " ++ methodName ++ "(" ++ path ++ "): " ++ emsg

mutual

/-- A crude `json.dumps` for diagnostics embedded in error messages (only
the message's existence matters to the properties below; byte-exact JSON
escaping and key order are not modelled). -/
def pyJson : PyValue → String
  | .pynone => "null"
  | .pybool b => if b then "true" else "false"
  | .pyint n => toString n
  | .pystr s => "\"" ++ s ++ "\""
  | .pydict l => "\x7b" ++ pyJsonEntries l ++ "\x7d"

/-- Comma-joined `"key": value` renderings of a dict's entries. -/
def pyJsonEntries : List (String × PyValue) → String
  | [] => ""
  | [kv] => "\"" ++ kv.1 ++ "\": " ++ pyJson kv.2
  | kv :: rest => "\"" ++ kv.1 ++ "\": " ++ pyJson kv.2 ++ ", " ++ pyJsonEntries rest

end

/-- Message of the application-error raise carrying `res.data["e"]`. -/
def errPayloadMsg (methodName path : String) (res : ResData) : String :=
  "Request internal failed, " ++ methodName ++ "(" ++ path ++ ") -> " ++
    pyJson (res.e.getD .pynone)

/-- Message of the untyped-fallback raise carrying the whole `res.data`. -/
def errDataMsg (methodName path : String) (res : ResData) : String :=
  "Request internal failed, " ++ methodName ++ "(" ++ path ++ ") -> " ++
    pyJson (.pydict [("success", res.success.getD .pynone), ("e", res.e.getD .pynone)])

/-- What the transport capability does in one attempt: raise
`asyncio.TimeoutError`, raise some other exception, or deliver a response
whose body normalizes to the given bytes. -/
inductive FetchOutcome where
  | timeout
  | failure (msg : String)
  | ok (body : List Nat)

/-- The external behaviour observed by one `_request_core` attempt: the
transport outcome, and — when the body is delivered — `read_thrift`'s
result (`none` = the codec raised). -/
structure AttemptEnv where
  fetch : FetchOutcome
  decode : Option RawRecord

/-- The final outcome of a call: a returned `ParsedThrift` record, or an
`InternalError` of type `RequestTimeout` / `RequestError`. -/
inductive Outcome where
  | ok (res : ResData)
  | errTimeout (msg : String)
  | errRequest (msg : String)

/-- Whether the outcome is a raised `InternalError`. -/
def Outcome.isErr : Outcome → Bool
  | .ok _ => false
  | .errTimeout _ => true
  | .errRequest _ => true

/-- Result of one attempt: a raise that terminates the call, a
refresh-and-retry, or a normal return. -/
inductive StepResult where
  | fatal (o : Outcome)
  | retryReq (res : ResData)
  | finish (res : ResData)

/-- The error/refresh decision chain at the end of `_request_core`,
mirroring the source's `if` sequence:
1. `if res.data.get("e") and not is_refresh: raise`;
2. `if has_error and not is_refresh: raise`;
3. `if is_refresh and not is_re_request: refresh and retry`;
4. `return res`. -/
def classifyResponse (methodName path : String) (raw : RawRecord) (res : ResData)
    (refreshTok isRe : Bool) : StepResult :=
  let hasError := hasErrorFlag raw
  let isRefresh := isRefreshFlag res refreshTok
  if truthyOpt res.e && !isRefresh then
    .fatal (.errRequest (errPayloadMsg methodName path res))
  else if hasError && !isRefresh then
    .fatal (.errRequest (errDataMsg methodName path res))
  else if isRefresh && !isRe then
    .retryReq res
  else
    .finish res

/-- One pass through `_request_core` up to (and including) the decision
chain: fetch (timeout/failure raise first), decode (failure raises the
bounded hex diagnostic), parse processing, classification. -/
def runAttempt (renameData : RawRecord → Bool → ResData)
    (renameThrift : String → PyValue → PyValue)
    (mode : ParseMode) (path methodName : String) (timeout : Nat)
    (refreshTok : Bool) (env : AttemptEnv) (isRe : Bool) : StepResult :=
  match env.fetch with
  | .timeout => .fatal (.errTimeout (timeoutMsg timeout methodName path))
  | .failure m => .fatal (.errRequest (fetchFailMsg methodName path m))
  | .ok body =>
    match env.decode with
    | none => .fatal (.errRequest (invalidBufferMsg body))
    | some raw =>
      classifyResponse methodName path raw
        (processRecord renameData renameThrift mode path raw) refreshTok isRe

/-- Model of `_request_core` for one logical call, together with the number of
transport round trips and of refresh-capability invocations it performs.
The first attempt runs with `is_re_request = False`; a `retryReq` verdict
awaits `auth.try_refresh_token()` once and re-runs the whole attempt with
`is_re_request = True`, whose outcome is final. The last match arm is
unreachable (`runAttempt_retry_not_re`): a retry verdict requires
`is_re_request = False`. -/
def requestCore (renameData : RawRecord → Bool → ResData)
    (renameThrift : String → PyValue → PyValue)
    (mode : ParseMode) (path methodName : String) (timeout : Nat)
    (refreshTok : Bool) (env1 env2 : AttemptEnv) : Outcome × Nat × Nat :=
  match runAttempt renameData renameThrift mode path methodName timeout refreshTok env1 false with
  | .fatal o => (o, 1, 0)
  | .finish r => (.ok r, 1, 0)
  | .retryReq _ =>
    match runAttempt renameData renameThrift mode path methodName timeout refreshTok env2 true with
    | .fatal o => (o, 2, 1)
    | .finish r => (.ok r, 2, 1)
    | .retryReq r => (.ok r, 2, 1)

theorem runAttempt_retry_not_re (renameData : RawRecord → Bool → ResData)
    (renameThrift : String → PyValue → PyValue)
    (mode : ParseMode) (path methodName : String) (timeout : Nat)
    (refreshTok : Bool) (env : AttemptEnv) (res : ResData) :
    runAttempt renameData renameThrift mode path methodName timeout refreshTok env true ≠
      .retryReq res := by
  unfold runAttempt
  cases env.fetch with
  | timeout => simp
  | failure m => simp
  | ok body =>
    cases env.decode with
    | none => simp
    | some raw =>
      simp only [classifyResponse]
      split
      · simp
      · split
        · simp
        · simp

/-! ## Claim C4 — default behaviour of the routing / exception lookups -/

/-- C4 (counterexample). The claim says the error-kind lookup
(`EndpointRegistry.get_exception_type`) returns `TalkException` for every
unregistered path; in fact it returns `None` (`/UNKNOWN` here). The domain
half also fails as universally stated: `/CHX` is registered nowhere, yet
the prefix rules route it to the API domain, not the primary one. -/
theorem c4_counterexample :
    getExceptionType "/UNKNOWN" = none ∧
    getExceptionType "/UNKNOWN" ≠ some "TalkException" ∧
    getDomainForEndpoint ⟨"primaryD", "obsD", "apiD", "accessD", "bizD"⟩ "/CHX" = "apiD" := by
  refine ⟨rfl, ?_, rfl⟩
  intro h
  simp [getExceptionType, assocLookup] at h

/-- C4 (amended): for every path matching none of the routing prefixes
(`/BEACON`, `/CH`, `/CHANNEL`, `/SQ`, `/SQUARE`), `get_domain_for_endpoint`
returns the primary (`line_host`) domain; for every path absent from the
exception table, `get_exception_type` returns `None` — not `TalkException`
— and neither lookup raises (both are total); the `TalkException` default
is applied only by the defaulted lookup inside the request lifecycle. -/
theorem c4_default_safety (cfg : DomainConfiguration) (path : String)
    (hb : strStartsWith path "/BEACON" = false)
    (hch : strStartsWith path "/CH" = false)
    (hchan : strStartsWith path "/CHANNEL" = false)
    (hsq : strStartsWith path "/SQ" = false)
    (hsqu : strStartsWith path "/SQUARE" = false)
    (hreg : path ∉ EXCEPTION_TYPES.map Prod.fst) :
    getDomainForEndpoint cfg path = cfg.line_host ∧
    getExceptionType path = none ∧
    exceptionTypeD path = "TalkException" := by
  refine ⟨?_, ?_, ?_⟩
  · simp [getDomainForEndpoint, hb, hch, hchan, hsq, hsqu]
  · exact assocLookup_eq_none_of_not_mem _ _ hreg
  · unfold exceptionTypeD
    rw [assocLookup_eq_none_of_not_mem _ _ hreg]
    rfl

theorem c4_default_safety_witness :
    getDomainForEndpoint ⟨"primaryD", "obsD", "apiD", "accessD", "bizD"⟩ "/UNKNOWN" = "primaryD" ∧
    getExceptionType "/UNKNOWN" = none ∧
    exceptionTypeD "/UNKNOWN" = "TalkException" :=
  c4_default_safety ⟨"primaryD", "obsD", "apiD", "accessD", "bizD"⟩ "/UNKNOWN"
    (by decide) (by decide) (by decide) (by decide) (by decide) (by decide)

/-! ## Claim C7 — header composition -/

/-- C7: for every method and credential state, `get_header` produces
exactly the fixed key set (host, accept, user-agent, application-identity,
content-type, locale, protocol-version, method-override, accept-encoding),
and contains the bearer-credential header `x-line-access` if and only if a
credential is present (a non-`None`, non-empty `auth_token`). -/
theorem c7_header_keys (endpoint userAgent systemType overrideMethod : String)
    (authToken : Option String) :
    (getHeader endpoint userAgent systemType authToken overrideMethod).map Prod.fst =
      FIXED_HEADER_KEYS ++ (if pyTruthyStr authToken then ["x-line-access"] else []) ∧
    ((getHeader endpoint userAgent systemType authToken overrideMethod).map
        Prod.fst).contains "x-line-access" = pyTruthyStr authToken := by
  constructor
  · cases h : pyTruthyStr authToken <;>
      simp [getHeader, FIXED_HEADER_KEYS, h]
  · cases h : pyTruthyStr authToken <;>
      simp [getHeader, h]

/-! ## Claim C8 — device identity for unsupported platforms -/

/-- C8 (counterexample). The claim says an unsupported platform requires
all four identity fields; in fact `os_model` is optional: `BOT` has no
entry in the platform→defaults table, yet construction succeeds with only
`app_version`, `os_name` and `os_version`, defaulting the model string. -/
theorem c8_counterexample :
    createConfig "BOT" = none ∧
    createWithDevice "BOT" (some "1.0.0") (some "CustomOS") (some "1.0") none =
      .ok ⟨"BOT", "1.0.0", "CustomOS", "1.0", "System Product Name",
        "KORONE-MY-WAIFU", false⟩ :=
  ⟨rfl, rfl⟩

/-- C8 (amended): for every platform with no entry in the
platform→defaults table, construction fails (with a configuration
`ValueError`) exactly when one of the **three** fields app version, OS
name, OS version is missing or empty; when all three are supplied it
succeeds, `os_model` being optional with a baked-in default. -/
theorem c8_unsupported_device_fields (deviceType : String)
    (appVersion osName osVersion osModel : Option String)
    (h : createConfig deviceType = none) :
    ((pyTruthyStr appVersion && pyTruthyStr osName && pyTruthyStr osVersion) = false →
      createSucceeds (createWithDevice deviceType appVersion osName osVersion osModel) = false) ∧
    ((pyTruthyStr appVersion && pyTruthyStr osName && pyTruthyStr osVersion) = true →
      createSucceeds (createWithDevice deviceType appVersion osName osVersion osModel) = true) := by
  unfold createWithDevice
  rw [h]
  constructor
  · intro ht
    simp [ht, createSucceeds]
  · intro ht
    simp [ht, createSucceeds]

theorem c8_unsupported_device_fields_witness :
    createSucceeds (createWithDevice "BOT" (some "1.0.0") none none none) = false ∧
    createSucceeds (createWithDevice "BOT" (some "1.0.0") (some "CustomOS") (some "1.0")
      (some "Model X")) = true :=
  ⟨(c8_unsupported_device_fields "BOT" (some "1.0.0") none none none rfl).1 rfl,
   (c8_unsupported_device_fields "BOT" (some "1.0.0") (some "CustomOS") (some "1.0")
      (some "Model X") rfl).2 rfl⟩

/-! ## Claim C10 — total device-details lookup -/

/-- C10: for every device type with no entry in the supported-platform
table (including strings that are not valid device-type names at all),
the public `get_device_details` returns `None` rather than raising, while
for every supported device type it returns a populated `DeviceDetails`. -/
theorem c10_device_details_total (device : String) (version : Option String) :
    (device ∉ supportedDeviceTypes → getDeviceDetails device version = none) ∧
    (device ∈ supportedDeviceTypes → (getDeviceDetails device version).isSome = true) := by
  constructor
  · intro h
    simp only [supportedDeviceTypes] at h
    unfold getDeviceDetails createConfig
    rw [assocLookup_eq_none_of_not_mem DEVICE_CONFIGS device h]
    cases hc : deviceTypeValues.contains device <;> simp
  · intro h
    simp only [supportedDeviceTypes, DEVICE_CONFIGS, List.map_cons, List.map_nil,
      List.mem_cons, List.not_mem_nil, or_false] at h
    rcases h with rfl | rfl | rfl | rfl | rfl | rfl | rfl | rfl | rfl | rfl <;> rfl

theorem c10_device_details_total_witness :
    getDeviceDetails "FOO" none = none ∧
    (getDeviceDetails "ANDROID" (some "14.0.0")).isSome = true :=
  ⟨(c10_device_details_total "FOO" none).1 (by decide),
   (c10_device_details_total "ANDROID" (some "14.0.0")).2 (by decide)⟩

/-! ## Shared concrete instances for witnesses and counterexamples -/

/-- Identity schema renamer, a concrete stand-in for the codec's
`rename_thrift` in concrete scenarios. -/
def idRenameThrift : String → PyValue → PyValue := fun _ v => v

/-- Constant full-mode renamer, a concrete stand-in for `rename_data`. -/
def constRenameData : RawRecord → Bool → ResData := fun _ _ => ⟨none, none, none, none, 0⟩

/-- A refreshable error payload: the `MUST_REFRESH_V3_TOKEN` sentinel. -/
def refreshPayload : PyValue := .pydict [("code", .pystr "MUST_REFRESH_V3_TOKEN")]

/-- Decoded record carrying only the exception slot with the sentinel. -/
def refreshRaw : RawRecord := ⟨none, some refreshPayload, 0⟩

/-- Attempt environment whose response decodes to the refreshable error. -/
def refreshEnv : AttemptEnv := ⟨.ok [0], some refreshRaw⟩

/-- A truthy success payload (the spec scenario `{0: {"ok": true}}`). -/
def okPayload : PyValue := .pydict [("ok", .pybool true)]

/-- Attempt environment whose response decodes to `{0: okPayload}`. -/
def okEnv : AttemptEnv := ⟨.ok [10], some ⟨some okPayload, none, 0⟩⟩

/-! ## Claim C1 — exactly one refresh and one extra round trip -/

/-- C1: whenever the first (non-retry) attempt decodes and classifies to a
refreshable response — error slot truthy with code `MUST_REFRESH_V3_TOKEN`
and a non-empty refresh credential — the call invokes the refresh
capability exactly once and performs exactly two transport round trips
(one additional), whatever the second attempt's environment does — even if
its response is again refreshable. -/
theorem c1_single_refresh_retry (renameData : RawRecord → Bool → ResData)
    (renameThrift : String → PyValue → PyValue) (mode : ParseMode)
    (path methodName : String) (timeout : Nat) (refreshTok : Bool)
    (env1 env2 : AttemptEnv) (body : List Nat) (raw : RawRecord)
    (hf : env1.fetch = .ok body) (hd : env1.decode = some raw)
    (hr : isRefreshFlag (processRecord renameData renameThrift mode path raw) refreshTok = true) :
    (requestCore renameData renameThrift mode path methodName timeout refreshTok env1 env2).2 =
      (2, 1) := by
  have hstep : runAttempt renameData renameThrift mode path methodName timeout refreshTok
      env1 false = .retryReq (processRecord renameData renameThrift mode path raw) := by
    unfold runAttempt
    rw [hf, hd]
    simp [classifyResponse, hr]
  unfold requestCore
  rw [hstep]
  cases runAttempt renameData renameThrift mode path methodName timeout refreshTok env2 true <;>
    rfl

theorem c1_single_refresh_retry_witness :
    (requestCore constRenameData idRenameThrift .noParse "/S3" "sync" 30000 true
      refreshEnv refreshEnv).2 = (2, 1) :=
  c1_single_refresh_retry constRenameData idRenameThrift .noParse "/S3" "sync" 30000 true
    refreshEnv refreshEnv [0] refreshRaw rfl rfl rfl

/-! ## Claim C2 — a retried refreshable response -/

/-- C2 (counterexample). The claim says a retried call whose response is
again refreshable surfaces a `RequestError`. In the code both raise-guards
are disabled when `is_refresh` holds and the retry branch is disabled when
`is_re_request` holds, so the call falls through to `return res`: with both
attempts refreshable, the outcome is a non-error result (after exactly one
refresh and two round trips). -/
theorem c2_counterexample :
    (requestCore constRenameData idRenameThrift .noParse "/S3" "sync" 30000 true
      refreshEnv refreshEnv).1.isErr = false ∧
    requestCore constRenameData idRenameThrift .noParse "/S3" "sync" 30000 true
      refreshEnv refreshEnv =
      (.ok ⟨some .pynone, some refreshPayload, none, none, 0⟩, 2, 1) :=
  ⟨rfl, rfl⟩

/-- C2 (amended): for every retried call (retry flag set) whose decoded
response is again refreshable, the call raises no error at all — it
returns the classified record, error payload still in its `e` slot, as a
normal result, performing no further refresh and no third round trip. -/
theorem c2_retry_refreshable_returns (renameData : RawRecord → Bool → ResData)
    (renameThrift : String → PyValue → PyValue) (mode : ParseMode)
    (path methodName : String) (timeout : Nat) (refreshTok : Bool)
    (env1 env2 : AttemptEnv) (r : ResData) (body2 : List Nat) (raw2 : RawRecord)
    (h1 : runAttempt renameData renameThrift mode path methodName timeout refreshTok
      env1 false = .retryReq r)
    (hf2 : env2.fetch = .ok body2) (hd2 : env2.decode = some raw2)
    (hr2 : isRefreshFlag (processRecord renameData renameThrift mode path raw2) refreshTok = true) :
    requestCore renameData renameThrift mode path methodName timeout refreshTok env1 env2 =
      (.ok (processRecord renameData renameThrift mode path raw2), 2, 1) := by
  have hstep2 : runAttempt renameData renameThrift mode path methodName timeout refreshTok
      env2 true = .finish (processRecord renameData renameThrift mode path raw2) := by
    unfold runAttempt
    rw [hf2, hd2]
    simp [classifyResponse, hr2]
  unfold requestCore
  rw [h1, hstep2]

theorem c2_retry_refreshable_returns_witness :
    requestCore constRenameData idRenameThrift .noParse "/S3" "sync" 30000 true
      refreshEnv refreshEnv =
      (.ok (processRecord constRenameData idRenameThrift .noParse "/S3" refreshRaw), 2, 1) :=
  c2_retry_refreshable_returns constRenameData idRenameThrift .noParse "/S3" "sync" 30000 true
    refreshEnv refreshEnv
    (processRecord constRenameData idRenameThrift .noParse "/S3" refreshRaw)
    [0] refreshRaw rfl rfl rfl rfl

/-! ## Claim C3 — success classification in all three parse modes -/

/-- C3: in all three parse modes, a decoded record with only field 0
populated (truthy field 0, no field 1, no other keys) classifies with no
error and the call resolves with the field-0 value as success payload —
raw for `parse = False`, renamed through `rename_thrift` for a struct-name
`parse`, and, for `parse = True`, whatever record the codec's schema-aware
`rename_data` produced (hypotheses name its output). -/
theorem c3_success_only_field0 (renameData : RawRecord → Bool → ResData)
    (renameThrift : String → PyValue → PyValue)
    (path methodName : String) (timeout : Nat) (refreshTok : Bool)
    (env1 env2 : AttemptEnv) (body : List Nat) (v : PyValue)
    (hf : env1.fetch = .ok body) (hd : env1.decode = some ⟨some v, none, 0⟩)
    (hv : v.truthy = true) :
    (requestCore renameData renameThrift .noParse path methodName timeout refreshTok env1 env2 =
      (.ok ⟨some v, none, none, none, 0⟩, 1, 0)) ∧
    (∀ s, requestCore renameData renameThrift (.named s) path methodName timeout refreshTok
        env1 env2 =
      (.ok ⟨some (renameThrift s v), none, none, none, 0⟩, 1, 0)) ∧
    (∀ res', renameData ⟨some v, none, 0⟩ (SQUARE_ENDPOINTS.contains path) = res' →
      truthyOpt res'.e = false →
      requestCore renameData renameThrift .full path methodName timeout refreshTok env1 env2 =
        (.ok res', 1, 0)) := by
  have hcls : ∀ res : ResData, truthyOpt res.e = false →
      classifyResponse methodName path ⟨some v, none, 0⟩ res refreshTok false = .finish res := by
    intro res he
    simp only [truthyOpt] at he
    simp [classifyResponse, isRefreshFlag, hasErrorFlag, truthyOpt, hv, he]
  refine ⟨?_, ?_, ?_⟩
  · have hstep : runAttempt renameData renameThrift .noParse path methodName timeout refreshTok
        env1 false = .finish ⟨some v, none, none, none, 0⟩ := by
      unfold runAttempt
      rw [hf, hd]
      dsimp only
      rw [show processRecord renameData renameThrift .noParse path ⟨some v, none, 0⟩ =
          ⟨some v, none, none, none, 0⟩ by simp [processRecord, truthyOpt, PyValue.truthy]]
      exact hcls ⟨some v, none, none, none, 0⟩ rfl
    unfold requestCore
    rw [hstep]
  · intro s
    have hstep : runAttempt renameData renameThrift (.named s) path methodName timeout refreshTok
        env1 false = .finish ⟨some (renameThrift s v), none, none, none, 0⟩ := by
      unfold runAttempt
      rw [hf, hd]
      dsimp only
      rw [show processRecord renameData renameThrift (.named s) path ⟨some v, none, 0⟩ =
          ⟨some (renameThrift s v), none, none, none, 0⟩ by simp [processRecord, truthyOpt, PyValue.truthy]]
      exact hcls ⟨some (renameThrift s v), none, none, none, 0⟩ rfl
    unfold requestCore
    rw [hstep]
  · intro res' hrd he
    have hstep : runAttempt renameData renameThrift .full path methodName timeout refreshTok
        env1 false = .finish res' := by
      unfold runAttempt
      rw [hf, hd]
      dsimp only
      rw [show processRecord renameData renameThrift .full path ⟨some v, none, 0⟩ = res' by
        simpa [processRecord] using hrd]
      exact hcls res' he
    unfold requestCore
    rw [hstep]

theorem c3_success_only_field0_witness :
    (requestCore constRenameData idRenameThrift .noParse "/S3" "sync" 30000 false okEnv okEnv =
      (.ok ⟨some okPayload, none, none, none, 0⟩, 1, 0)) ∧
    (requestCore constRenameData idRenameThrift (.named "PingResponse") "/S3" "sync" 30000 false
        okEnv okEnv =
      (.ok ⟨some (idRenameThrift "PingResponse" okPayload), none, none, none, 0⟩, 1, 0)) ∧
    (requestCore constRenameData idRenameThrift .full "/S3" "sync" 30000 false okEnv okEnv =
      (.ok ⟨none, none, none, none, 0⟩, 1, 0)) :=
  ⟨(c3_success_only_field0 constRenameData idRenameThrift "/S3" "sync" 30000 false okEnv okEnv
      [10] okPayload rfl rfl rfl).1,
   (c3_success_only_field0 constRenameData idRenameThrift "/S3" "sync" 30000 false okEnv okEnv
      [10] okPayload rfl rfl rfl).2.1 "PingResponse",
   (c3_success_only_field0 constRenameData idRenameThrift "/S3" "sync" 30000 false okEnv okEnv
      [10] okPayload rfl rfl rfl).2.2 ⟨none, none, none, none, 0⟩ rfl rfl⟩

/-! ## Claim C5 — transport failures are terminal and typed -/

/-- C5: when the transport capability fails on the first attempt, the call
terminates immediately with the matching typed outcome — `RequestTimeout`
for a deadline, `RequestError` otherwise — after exactly one round trip
and zero refresh invocations, whatever the rest of the environment says. -/
theorem c5_transport_failure_terminal (renameData : RawRecord → Bool → ResData)
    (renameThrift : String → PyValue → PyValue) (mode : ParseMode)
    (path methodName : String) (timeout : Nat) (refreshTok : Bool)
    (env1 env2 : AttemptEnv) :
    (env1.fetch = .timeout →
      requestCore renameData renameThrift mode path methodName timeout refreshTok env1 env2 =
        (.errTimeout (timeoutMsg timeout methodName path), 1, 0)) ∧
    (∀ m, env1.fetch = .failure m →
      requestCore renameData renameThrift mode path methodName timeout refreshTok env1 env2 =
        (.errRequest (fetchFailMsg methodName path m), 1, 0)) := by
  constructor
  · intro hf
    unfold requestCore runAttempt
    rw [hf]
  · intro m hf
    unfold requestCore runAttempt
    rw [hf]

theorem c5_transport_failure_terminal_witness :
    (requestCore constRenameData idRenameThrift .noParse "/S3" "sync" 30000 true
      ⟨.timeout, none⟩ okEnv =
      (.errTimeout (timeoutMsg 30000 "sync" "/S3"), 1, 0)) ∧
    (requestCore constRenameData idRenameThrift .noParse "/S3" "sync" 30000 true
      ⟨.failure "connection reset", none⟩ okEnv =
      (.errRequest (fetchFailMsg "sync" "/S3" "connection reset"), 1, 0)) :=
  ⟨(c5_transport_failure_terminal constRenameData idRenameThrift .noParse "/S3" "sync" 30000 true
      ⟨.timeout, none⟩ okEnv).1 rfl,
   (c5_transport_failure_terminal constRenameData idRenameThrift .noParse "/S3" "sync" 30000 true
      ⟨.failure "connection reset", none⟩ okEnv).2 "connection reset" rfl⟩

/-! ## Claim C6 — decode failure reports a bounded hex diagnostic -/

/-- C6: when decoding the response bytes raises, the call fails with a
`RequestError` whose message embeds the first 100 bytes (or all, if
fewer) rendered as two-digit hex joined by single spaces; the hex dump is
a substring of the message. The witness instantiates the payload
`b"\x00\x01"` and exhibits the substring `00 01`. -/
theorem c6_decode_failure_hex (renameData : RawRecord → Bool → ResData)
    (renameThrift : String → PyValue → PyValue) (mode : ParseMode)
    (path methodName : String) (timeout : Nat) (refreshTok : Bool)
    (env1 env2 : AttemptEnv) (body : List Nat)
    (hf : env1.fetch = .ok body) (hd : env1.decode = none) :
    requestCore renameData renameThrift mode path methodName timeout refreshTok env1 env2 =
      (.errRequest (invalidBufferMsg body), 1, 0) ∧
    ∃ pre post, invalidBufferMsg body = pre ++ bodyHexDump body ++ post := by
  constructor
  · unfold requestCore runAttempt
    rw [hf, hd]
  · exact ⟨"Request internal failed: Invalid response buffer <", ">", rfl⟩

theorem c6_decode_failure_hex_witness :
    requestCore constRenameData idRenameThrift .noParse "/S3" "sync" 30000 false
      ⟨.ok [0, 1], none⟩ okEnv =
      (.errRequest "Request internal failed: Invalid response buffer <00 01>", 1, 0) ∧
    ∃ pre post,
      ("Request internal failed: Invalid response buffer <00 01>" : String) =
        pre ++ "00 01" ++ post :=
  ⟨(c6_decode_failure_hex constRenameData idRenameThrift .noParse "/S3" "sync" 30000 false
      ⟨.ok [0, 1], none⟩ okEnv [0, 1] rfl rfl).1,
   ⟨"Request internal failed: Invalid response buffer <", ">", rfl⟩⟩

/-! ## Claim C9 — handler isolation and ordering in `emit` -/

/-- C9: `emit` invokes every handler registered for the event, in
registration order (`on` appends, and the i-th recorded outcome is the
guarded invocation of the i-th handler); a handler that raises is only
logged — it never suppresses delivery to the remaining handlers and, the
loop being total, never propagates an exception back to the emitter. -/
theorem c9_emit_isolation {α : Type} (st : EventState α) (ev : String) (arg : α) :
    (emitEvent st ev arg).length = (getHandlers st ev).length ∧
    (∀ i h, (getHandlers st ev).get? i = some h →
      (emitEvent st ev arg).get? i = some (safeInvoke arg h)) ∧
    (∀ h, emitEvent (onEvent st ev h) ev arg =
      emitEvent st ev arg ++ [safeInvoke arg h]) := by
  refine ⟨?_, ?_, ?_⟩
  · simp [emitEvent, emitLoop_eq_map arg]
  · intro i h hi
    unfold emitEvent
    rw [emitLoop_eq_map arg, List.get?_map, hi]
    rfl
  · intro h
    simp [emitEvent, getHandlers_onEvent, emitLoop_eq_map arg]

/-- A handler that raises, for the C9 witness. -/
def exHandlerFail : Handler Nat := fun _ => .error "boom"

/-- A handler that succeeds, for the C9 witness. -/
def exHandlerOk : Handler Nat := fun _ => .ok ()

/-- Event state with a failing handler registered before a succeeding one. -/
def exBusState : EventState Nat :=
  onEvent (onEvent [] "update:authtoken" exHandlerFail) "update:authtoken" exHandlerOk

theorem c9_emit_isolation_witness :
    (emitEvent exBusState "update:authtoken" 7).length =
      (getHandlers exBusState "update:authtoken").length ∧
    (emitEvent exBusState "update:authtoken" 7).get? 1 = some (safeInvoke 7 exHandlerOk) :=
  ⟨(c9_emit_isolation exBusState "update:authtoken" 7).1,
   (c9_emit_isolation exBusState "update:authtoken" 7).2.1 1 exHandlerOk rfl⟩

end CHRFORGE
